import Mathlib

/-!
Shallow embedding of the per-user todo-list HTTP service of
denny0223/fastapi-todo-list (src/main.py), together with the parts of the
persistence and request pipeline needed to settle the claims: the pydantic
models, the dict-backed dataset, the load/save helpers and every route
handler. Machine-checked statements about the handlers follow the
definitions.
-/

/-- Embeds the pydantic model TodoItem (src/main.py lines 15-19): a stored todo
record with an id generated at creation, a required title, an optional
description and a completed flag defaulting to false. -/
structure TodoItem where
  id : String
  title : String
  description : Option String
  completed : Bool
deriving DecidableEq, Repr

/-- Embeds the pydantic model TodoCreate (src/main.py lines 21-24): the
validated request body for create and update, with title required,
description defaulting to null and completed defaulting to false. -/
structure TodoCreate where
  title : String
  description : Option String
  completed : Bool
deriving DecidableEq, Repr

/-- A raw JSON request body for the TodoCreate model: each field is none when
its key is absent from the payload. pydantic records which fields were
present in the payload (the fields_set) and model_dump with exclude_unset
replays exactly those; this structure keeps that presence information, so
some none for description is an explicit null while none is an absent key. -/
structure TodoCreatePayload where
  title : Option String
  description : Option (Option String)
  completed : Option Bool
deriving DecidableEq, Repr

/-- Embeds fastapi.HTTPException as the handlers raise it: a status code and a
detail message. Validation failures and uncaught exceptions are folded into
the same shape with status 422 and 500 respectively. -/
structure HTTPException where
  status_code : Nat
  detail : String
deriving DecidableEq, Repr

/-- pydantic validation of a TodoCreate body: title is declared required, so a
payload without it is rejected, which FastAPI surfaces as a 422 response
before the handler runs; description and completed take their declared
defaults when absent. -/
def validateTodoCreate (p : TodoCreatePayload) : Except HTTPException TodoCreate :=
  match p.title with
  | none => .error ⟨422, "Field required"⟩
  | some t => .ok ⟨t, p.description.getD none, p.completed.getD false⟩

/-- The in-memory dataset: the Python dict from username to that user's list of
todo items, embedded as an insertion-ordered association list. -/
abbrev Dataset := List (String × List TodoItem)

/-- Python dict read (data[k], and k in data when the result is matched against
none): the value bound to the first occurrence of the key. -/
def dget (data : Dataset) (k : String) : Option (List TodoItem) :=
  match data with
  | [] => none
  | (k2, v) :: rest => if k2 = k then some v else dget rest k

/-- Python dict write (data[k] = v): replaces the binding in place when the key
is present, appends a new binding at the end otherwise. -/
def dset (data : Dataset) (k : String) (v : List TodoItem) : Dataset :=
  match data with
  | [] => [(k, v)]
  | (k2, w) :: rest => if k2 = k then (k, v) :: rest else (k2, w) :: dset rest k v

/-- Python dict key removal (del data[k] / data.pop(k)): drops the bindings of
the key. -/
def ddel (data : Dataset) (k : String) : Dataset :=
  match data with
  | [] => []
  | (k2, w) :: rest => if k2 = k then ddel rest k else (k2, w) :: ddel rest k

/-- Embeds todo.model_copy with the dict produced by
todo_update.model_dump(exclude_unset=True) (src/main.py line 127): exactly the
fields present in the payload overwrite the stored record, absent fields keep
their stored values, and the id is untouched because the body model has no id
field at all. -/
def mergeUpdate (todo : TodoItem) (p : TodoCreatePayload) : TodoItem :=
  { id := todo.id,
    title := p.title.getD todo.title,
    description := p.description.getD todo.description,
    completed := p.completed.getD todo.completed }

/-- Embeds create_todo_for_user (src/main.py lines 52-70) after load_data: the
bucket is created when absent, a fresh TodoItem built from the body is
appended, and the pair of the dataset to be saved and the created item is
returned. newId stands for the str(uuid.uuid4()) the model generates. -/
def create_todo_for_user (username : String) (todo_create : TodoCreate)
    (newId : String) (data : Dataset) : Dataset × TodoItem :=
  let data1 := match dget data username with
    | none => dset data username []
    | some _ => data
  let new_todo : TodoItem :=
    ⟨newId, todo_create.title, todo_create.description, todo_create.completed⟩
  let bucket := (dget data1 username).getD []
  (dset data1 username (bucket ++ [new_todo]), new_todo)

/-- Embeds get_todos_for_user (src/main.py lines 72-84) after load_data: 404
with the literal detail string when the username has no key in the dataset,
otherwise the whole bucket, including when that bucket is the empty list. -/
def get_todos_for_user (username : String) (data : Dataset) :
    Except HTTPException (List TodoItem) :=
  match dget data username with
  | none => .error ⟨404, "User not found or no todos for this user"⟩
  | some todos => .ok todos

/-- Embeds get_todo_for_user (src/main.py lines 86-105) after load_data: 404
for a missing user, then a linear scan returning the first item whose id
matches, 404 when none does. -/
def get_todo_for_user (username todo_id : String) (data : Dataset) :
    Except HTTPException TodoItem :=
  match dget data username with
  | none => .error ⟨404, "User not found"⟩
  | some user_todos =>
    match user_todos.find? (fun todo => todo.id == todo_id) with
    | some todo => .ok todo
    | none => .error ⟨404, "Todo not found"⟩

/-- The scan loop inside update_todo_for_user (src/main.py lines 125-131):
walks the bucket, replaces the first item whose id matches by the
merge-updated record in place, and reports the merged record; none when no
item matches. -/
def update_scan (todo_id : String) (p : TodoCreatePayload) :
    List TodoItem → Option (List TodoItem × TodoItem)
  | [] => none
  | todo :: rest =>
    if todo.id = todo_id then
      some (mergeUpdate todo p :: rest, mergeUpdate todo p)
    else
      match update_scan todo_id p rest with
      | none => none
      | some (l, u) => some (todo :: l, u)

/-- Embeds the body of update_todo_for_user (src/main.py lines 107-131), after
FastAPI body validation and load_data: 404 for a missing user, merge-update of
the first item whose id matches, 404 when no item matches; on success the
dataset to be saved and the merged record are returned. -/
def update_todo_for_user (username todo_id : String) (p : TodoCreatePayload)
    (data : Dataset) : Except HTTPException (Dataset × TodoItem) :=
  match dget data username with
  | none => .error ⟨404, "User not found"⟩
  | some user_todos =>
    match update_scan todo_id p user_todos with
    | some (newTodos, updated) => .ok (dset data username newTodos, updated)
    | none => .error ⟨404, "Todo not found"⟩

/-- Embeds delete_todo_for_user (src/main.py lines 133-156) after load_data:
404 for a missing user; the bucket is filtered down to the items whose id
differs; when the length is unchanged no item matched and the handler raises
404, otherwise the filtered bucket is stored and the confirmation message
returned. -/
def delete_todo_for_user (username todo_id : String) (data : Dataset) :
    Except HTTPException (Dataset × String) :=
  match dget data username with
  | none => .error ⟨404, "User not found"⟩
  | some user_todos =>
    let remaining := user_todos.filter (fun todo => !(todo.id == todo_id))
    if remaining.length = user_todos.length then
      .error ⟨404, "Todo not found"⟩
    else
      .ok (dset data username remaining, "Todo deleted successfully")

/-- Modelled from the spec: the rename endpoint, PUT on the path
/users/oldUsername/rename/newUsername, is described by the spec and exercised
by src/test_main.py, but its handler is missing from src/main.py. Following
the spec and the detail strings asserted by the tests: 404 with detail "User
not found" when oldUsername has no key; 409 with detail "New username already
exists" when newUsername already has a key; otherwise the whole bucket moves
from oldUsername to newUsername, the old key is removed, and the message
"Username renamed successfully" is returned alongside the dataset to save. -/
def rename_user (oldUsername newUsername : String) (data : Dataset) :
    Except HTTPException (Dataset × String) :=
  match dget data oldUsername with
  | none => .error ⟨404, "User not found"⟩
  | some bucket =>
    match dget data newUsername with
    | some _ => .error ⟨409, "New username already exists"⟩
    | none =>
      .ok (dset (ddel data oldUsername) newUsername bucket,
           "Username renamed successfully")

/-- What reading the persisted file yields, as load_data distinguishes the
cases: the empty string, text that json.loads rejects with a JSONDecodeError,
or a JSON object of username keys mapped to arrays of complete four-field
todo records, which is the exact shape save_data writes; the last case is
held directly as the dataset it parses to, since building TodoItem from a
complete record dict and model_dump are mutually inverse. -/
inductive FileContent where
  | emptyStr
  | malformed
  | jsonDoc (d : Dataset)
deriving DecidableEq, Repr

/-- The observable states of the persisted file todos.json. stored carries
what an open-and-read yields; unreadable stands for a read that raises an
error other than FileNotFoundError, for example PermissionError on a file
without read permission, which the try block of load_data does not catch. -/
inductive FileState where
  | absent
  | unreadable
  | stored (c : FileContent)
deriving DecidableEq, Repr

/-- Embeds load_data (src/main.py lines 27-42): a FileNotFoundError is caught
and yields the empty dict, empty content yields the empty dict, a
JSONDecodeError is caught and yields the empty dict; any other read error is
not caught by the try block, propagates out of the handler, and surfaces to
the caller as a 500 response instead of a dataset. -/
def load_data : FileState → Except HTTPException Dataset
  | .absent => .ok []
  | .unreadable => .error ⟨500, "Internal Server Error"⟩
  | .stored .emptyStr => .ok []
  | .stored .malformed => .ok []
  | .stored (.jsonDoc d) => .ok d

/-- Embeds save_data (src/main.py lines 44-50): the whole dataset is written
to the file as one JSON object of complete todo records. -/
def save_data (d : Dataset) : FileState :=
  .stored (.jsonDoc d)

/-- The HTTP status of a response: FastAPI's default 200 on a successful
return, the exception's status code on failure. -/
def statusOf {α : Type} : Except HTTPException α → Nat
  | .ok _ => 200
  | .error e => e.status_code

/-- GET on /users/username/todos/ end to end: load then list. The endpoint is
read-only, so the file is never written. -/
def list_request (username : String) (file : FileState) :
    Except HTTPException (List TodoItem) :=
  match load_data file with
  | .error e => .error e
  | .ok data => get_todos_for_user username data

/-- GET on /users/username/todos/id end to end: load then fetch; read-only. -/
def get_request (username todo_id : String) (file : FileState) :
    Except HTTPException TodoItem :=
  match load_data file with
  | .error e => .error e
  | .ok data => get_todo_for_user username todo_id data

/-- POST create end to end: load, mutate, save. The first component is the
file after the request, the second the response. -/
def create_request (username : String) (p : TodoCreate) (newId : String)
    (file : FileState) : FileState × Except HTTPException TodoItem :=
  match load_data file with
  | .error e => (file, .error e)
  | .ok data =>
    let r := create_todo_for_user username p newId data
    (save_data r.1, .ok r.2)

/-- PUT update end to end: FastAPI validates the body first, so a payload
without a title is refused with 422 before anything is loaded; then load,
scan, and save on success. The file is unchanged on every failure path. -/
def update_request (username todo_id : String) (p : TodoCreatePayload)
    (file : FileState) : FileState × Except HTTPException TodoItem :=
  match validateTodoCreate p with
  | .error e => (file, .error e)
  | .ok _ =>
    match load_data file with
    | .error e => (file, .error e)
    | .ok data =>
      match update_todo_for_user username todo_id p data with
      | .error e => (file, .error e)
      | .ok (d2, updated) => (save_data d2, .ok updated)

/-- DELETE end to end: load, filter, save on success; the file is unchanged on
every failure path. -/
def delete_request (username todo_id : String) (file : FileState) :
    FileState × Except HTTPException String :=
  match load_data file with
  | .error e => (file, .error e)
  | .ok data =>
    match delete_todo_for_user username todo_id data with
    | .error e => (file, .error e)
    | .ok (d2, msg) => (save_data d2, .ok msg)

/-- PUT rename end to end: load, move the bucket, save on success; the file is
unchanged on every failure path. -/
def rename_request (oldUsername newUsername : String) (file : FileState) :
    FileState × Except HTTPException String :=
  match load_data file with
  | .error e => (file, .error e)
  | .ok data =>
    match rename_user oldUsername newUsername data with
    | .error e => (file, .error e)
    | .ok (d2, msg) => (save_data d2, .ok msg)

/-- The TodoItem that a create request builds from a body and a generated
id. -/
def mkTodo (p : TodoCreate × String) : TodoItem :=
  ⟨p.2, p.1.title, p.1.description, p.1.completed⟩

/-- N consecutive create requests for one user: each pair is the request body
and the uuid generated for that create. -/
def create_many (username : String) (items : List (TodoCreate × String))
    (file : FileState) : FileState :=
  items.foldl (fun f p => (create_request username p.1 p.2 f).1) file

/-- The pure dataset transform that N consecutive creates perform. -/
def create_fold (username : String) (items : List (TodoCreate × String))
    (data : Dataset) : Dataset :=
  items.foldl (fun acc p => (create_todo_for_user username p.1 p.2 acc).1) data

/-- Sample dataset mirroring test_rename_user_success: two users with their
buckets. -/
def dC1 : Dataset :=
  [("user1", [⟨"todo1", "Task 1", some "Description 1", false⟩,
              ⟨"todo2", "Task 2", some "Description 2", true⟩]),
   ("another_user", [⟨"todo3", "Task 3", some "Description 3", false⟩])]

/-- The bucket of user1 in dC1. -/
def bC1 : List TodoItem :=
  [⟨"todo1", "Task 1", some "Description 1", false⟩,
   ⟨"todo2", "Task 2", some "Description 2", true⟩]

/-- Sample dataset with one user holding one stored todo. -/
def dC2 : Dataset :=
  [("alice", [⟨"t1", "Buy milk", some "2 liters", false⟩])]

/-- Sample dataset mirroring test_rename_user_conflict: both the source and
the target username already exist. -/
def dC3 : Dataset :=
  [("userA", [⟨"todoA1", "Task A1", some "Desc A1", false⟩]),
   ("userB", [⟨"todoB1", "Task B1", some "Desc B1", true⟩])]

/-- Sample dataset with a three-item bucket and a second user. -/
def dC7 : Dataset :=
  [("alice", [⟨"a", "first", none, false⟩,
              ⟨"b", "second", some "mid", true⟩,
              ⟨"c", "third", none, false⟩]),
   ("bob", [⟨"x", "other", none, false⟩])]

/-- Sample bodies and generated ids for two consecutive creates. -/
def itemsC8 : List (TodoCreate × String) :=
  [(⟨"Buy milk", none, false⟩, "id-1"),
   (⟨"Task 2", some "d2", true⟩, "id-2")]

/-- Sample dataset with a two-item bucket for the update frame witness. -/
def dC9 : Dataset :=
  [("alice", [⟨"a", "first", some "da", false⟩,
              ⟨"b", "second", some "db", false⟩]),
   ("bob", [⟨"x", "other", none, true⟩])]

/-- Sample dataset whose single user holds exactly one todo. -/
def dC10 : Dataset :=
  [("alice", [⟨"only", "last task", none, false⟩])]

/-! Helper lemmas about the dict operations and the bucket scans. -/

theorem dget_dset_self (d : Dataset) (k : String) (v : List TodoItem) :
    dget (dset d k v) k = some v := by
  induction d with
  | nil => simp [dset, dget]
  | cons hd rest ih =>
    obtain ⟨k2, w⟩ := hd
    by_cases h : k2 = k
    · simp [dset, dget, h]
    · simp [dset, dget, h, ih]

theorem dget_dset_ne (d : Dataset) (k v2 : String) (v : List TodoItem)
    (h : v2 ≠ k) : dget (dset d k v) v2 = dget d v2 := by
  have h2 : ¬ (k = v2) := fun hh => h hh.symm
  induction d with
  | nil => simp [dset, dget, h2]
  | cons hd rest ih =>
    obtain ⟨k2, w⟩ := hd
    by_cases hk : k2 = k
    · subst hk
      simp [dset, dget, h2]
    · simp [dset, dget, hk, ih]

theorem dget_ddel_self (d : Dataset) (k : String) :
    dget (ddel d k) k = none := by
  induction d with
  | nil => simp [ddel, dget]
  | cons hd rest ih =>
    obtain ⟨k2, w⟩ := hd
    by_cases h : k2 = k
    · simp [ddel, h, ih]
    · simp [ddel, dget, h, ih]

theorem dget_ddel_ne (d : Dataset) (k v2 : String) (h : v2 ≠ k) :
    dget (ddel d k) v2 = dget d v2 := by
  have h2 : ¬ (k = v2) := fun hh => h hh.symm
  induction d with
  | nil => simp [ddel]
  | cons hd rest ih =>
    obtain ⟨k2, w⟩ := hd
    by_cases hk : k2 = k
    · subst hk
      simp [ddel, dget, h2, ih]
    · simp [ddel, dget, hk, ih]

theorem filter_id_ne_of_none_match (todo_id : String) (l : List TodoItem)
    (h : ∀ x ∈ l, x.id ≠ todo_id) :
    l.filter (fun todo => !(todo.id == todo_id)) = l := by
  induction l with
  | nil => rfl
  | cons x xs ih =>
    have hx : (x.id == todo_id) = false := by
      simpa using h x (by simp)
    simp only [List.filter_cons, hx, Bool.not_false, if_pos]
    rw [ih (fun y hy => h y (by simp [hy]))]

theorem update_scan_found (todo_id : String) (p : TodoCreatePayload)
    (pre post : List TodoItem) (t : TodoItem)
    (ht : t.id = todo_id) (hpre : ∀ x ∈ pre, x.id ≠ todo_id) :
    update_scan todo_id p (pre ++ t :: post) =
      some (pre ++ mergeUpdate t p :: post, mergeUpdate t p) := by
  induction pre with
  | nil => simp [update_scan, ht]
  | cons x xs ih =>
    have hx : x.id ≠ todo_id := hpre x (by simp)
    rw [List.cons_append, update_scan, if_neg hx,
      ih (fun y hy => hpre y (by simp [hy]))]
    rfl

theorem create_todo_bucket (u : String) (tc : TodoCreate) (newId : String)
    (d : Dataset) :
    dget (create_todo_for_user u tc newId d).1 u =
      some ((dget d u).getD [] ++ [mkTodo (tc, newId)]) := by
  unfold create_todo_for_user mkTodo
  cases h : dget d u with
  | none => simp [h, dget_dset_self]
  | some b => simp [h, dget_dset_self]

theorem create_todo_frame (u v : String) (tc : TodoCreate) (newId : String)
    (d : Dataset) (hv : v ≠ u) :
    dget (create_todo_for_user u tc newId d).1 v = dget d v := by
  unfold create_todo_for_user
  cases h : dget d u with
  | none => simp [h, dget_dset_ne _ _ _ _ hv]
  | some b => simp [h, dget_dset_ne _ _ _ _ hv]

theorem load_save (d : Dataset) : load_data (save_data d) = .ok d := rfl

theorem create_many_load (u : String) (items : List (TodoCreate × String))
    (file : FileState) (d : Dataset) (h : load_data file = .ok d) :
    load_data (create_many u items file) = .ok (create_fold u items d) := by
  induction items generalizing file d with
  | nil => simpa [create_many, create_fold] using h
  | cons p rest ih =>
    simp only [create_many, create_fold, List.foldl_cons]
    have hstep : (create_request u p.1 p.2 file).1 =
        save_data (create_todo_for_user u p.1 p.2 d).1 := by
      simp [create_request, h]
    rw [hstep]
    exact ih _ _ (load_save _)

theorem create_fold_bucket (u : String) (items : List (TodoCreate × String))
    (d : Dataset) (b : List TodoItem) (h : dget d u = some b) :
    dget (create_fold u items d) u = some (b ++ items.map mkTodo) := by
  induction items generalizing d b with
  | nil => simpa [create_fold]
  | cons p rest ih =>
    simp only [create_fold, List.foldl_cons]
    have h1 := create_todo_bucket u p.1 p.2 d
    rw [h] at h1
    have h2 := ih (create_todo_for_user u p.1 p.2 d).1 (b ++ [mkTodo (p.1, p.2)])
      (by simpa using h1)
    simpa [create_fold] using h2

/-! Claim theorems. -/

/-- Claim C1: for every dataset in which oldUsername is present and newUsername
is absent, the rename request succeeds with status 200 and the body message
"Username renamed successfully", moves the entire bucket unchanged in content
and order from oldUsername to newUsername, removes the oldUsername key, leaves
every other user's bucket untouched, and persists the result. -/
theorem rename_success (oldU newU : String) (d : Dataset) (bucket : List TodoItem)
    (hold : dget d oldU = some bucket) (hnew : dget d newU = none) :
    (rename_request oldU newU (save_data d)).2 = .ok "Username renamed successfully" ∧
    statusOf (rename_request oldU newU (save_data d)).2 = 200 ∧
    ∃ d2, (rename_request oldU newU (save_data d)).1 = save_data d2 ∧
      load_data (rename_request oldU newU (save_data d)).1 = .ok d2 ∧
      dget d2 newU = some bucket ∧ dget d2 oldU = none ∧
      ∀ v, v ≠ oldU → v ≠ newU → dget d2 v = dget d v := by
  have hne : oldU ≠ newU := by
    intro h
    rw [h, hnew] at hold
    exact Option.noConfusion hold
  have hr : rename_request oldU newU (save_data d) =
      (save_data (dset (ddel d oldU) newU bucket),
       .ok "Username renamed successfully") := by
    simp [rename_request, load_data, save_data, rename_user, hold, hnew]
  rw [hr]
  refine ⟨rfl, rfl, dset (ddel d oldU) newU bucket, rfl, rfl,
    dget_dset_self _ _ _, ?_, ?_⟩
  · rw [dget_dset_ne _ _ _ _ hne, dget_ddel_self]
  · intro v hv1 hv2
    rw [dget_dset_ne _ _ _ _ hv2, dget_ddel_ne _ _ _ hv1]

/-- Witness for C1 on the dataset of test_rename_user_success. -/
theorem rename_success_witness :
    dget dC1 "user1" = some bC1 ∧ dget dC1 "newUser1" = none ∧
    ((rename_request "user1" "newUser1" (save_data dC1)).2 =
        .ok "Username renamed successfully" ∧
      statusOf (rename_request "user1" "newUser1" (save_data dC1)).2 = 200 ∧
      ∃ d2, (rename_request "user1" "newUser1" (save_data dC1)).1 = save_data d2 ∧
        load_data (rename_request "user1" "newUser1" (save_data dC1)).1 = .ok d2 ∧
        dget d2 "newUser1" = some bC1 ∧ dget d2 "user1" = none ∧
        ∀ v, v ≠ "user1" → v ≠ "newUser1" → dget d2 v = dget dC1 v) :=
  ⟨by decide, by decide,
   rename_success "user1" "newUser1" dC1 bC1 (by decide) (by decide)⟩

/-- Claim C3: for every dataset in which both oldUsername and newUsername are
present, the rename request fails with Conflict status 409 and leaves both
users' buckets, and the whole persisted dataset, unchanged. -/
theorem rename_conflict (oldU newU : String) (d : Dataset)
    (b1 b2 : List TodoItem)
    (h1 : dget d oldU = some b1) (h2 : dget d newU = some b2) :
    rename_request oldU newU (save_data d) =
      (save_data d, .error ⟨409, "New username already exists"⟩) ∧
    statusOf (rename_request oldU newU (save_data d)).2 = 409 ∧
    load_data (rename_request oldU newU (save_data d)).1 = .ok d := by
  have hr : rename_request oldU newU (save_data d) =
      (save_data d, .error ⟨409, "New username already exists"⟩) := by
    simp [rename_request, load_data, save_data, rename_user, h1, h2]
  rw [hr]
  exact ⟨rfl, rfl, rfl⟩

/-- Witness for C3 on the dataset of test_rename_user_conflict. -/
theorem rename_conflict_witness :
    dget dC3 "userA" = some [⟨"todoA1", "Task A1", some "Desc A1", false⟩] ∧
    dget dC3 "userB" = some [⟨"todoB1", "Task B1", some "Desc B1", true⟩] ∧
    (rename_request "userA" "userB" (save_data dC3) =
        (save_data dC3, .error ⟨409, "New username already exists"⟩) ∧
      statusOf (rename_request "userA" "userB" (save_data dC3)).2 = 409 ∧
      load_data (rename_request "userA" "userB" (save_data dC3)).1 = .ok dC3) :=
  ⟨by decide, by decide,
   rename_conflict "userA" "userB" dC3
     [⟨"todoA1", "Task A1", some "Desc A1", false⟩]
     [⟨"todoB1", "Task B1", some "Desc B1", true⟩] (by decide) (by decide)⟩

/-- Claim C4: for every username absent from the dataset, ListTodos, GetTodo,
UpdateTodo (with any body that passes validation), DeleteTodo, and RenameUser
with that username as source all fail with status 404, and the persisted file
is unchanged by the failed request. -/
theorem absent_user_404 (u : String) (d : Dataset) (hu : dget d u = none) :
    list_request u (save_data d) =
      .error ⟨404, "User not found or no todos for this user"⟩ ∧
    (∀ todo_id, get_request u todo_id (save_data d) =
      .error ⟨404, "User not found"⟩) ∧
    (∀ todo_id p tc, validateTodoCreate p = .ok tc →
      update_request u todo_id p (save_data d) =
        (save_data d, .error ⟨404, "User not found"⟩)) ∧
    (∀ todo_id, delete_request u todo_id (save_data d) =
      (save_data d, .error ⟨404, "User not found"⟩)) ∧
    (∀ newU, rename_request u newU (save_data d) =
      (save_data d, .error ⟨404, "User not found"⟩)) := by
  refine ⟨?_, ?_, ?_, ?_, ?_⟩
  · simp [list_request, load_data, save_data, get_todos_for_user, hu]
  · intro todo_id
    simp [get_request, load_data, save_data, get_todo_for_user, hu]
  · intro todo_id p tc hv
    simp [update_request, hv, load_data, save_data, update_todo_for_user, hu]
  · intro todo_id
    simp [delete_request, load_data, save_data, delete_todo_for_user, hu]
  · intro newU
    simp [rename_request, load_data, save_data, rename_user, hu]

/-- Witness for C4 on a dataset that has a user1 key but no ghost key. -/
theorem absent_user_404_witness :
    dget [("user1", ([] : List TodoItem))] "ghost" = none ∧
    (list_request "ghost" (save_data [("user1", ([] : List TodoItem))]) =
        .error ⟨404, "User not found or no todos for this user"⟩ ∧
      (∀ todo_id, get_request "ghost" todo_id
          (save_data [("user1", ([] : List TodoItem))]) =
        .error ⟨404, "User not found"⟩) ∧
      (∀ todo_id p tc, validateTodoCreate p = .ok tc →
        update_request "ghost" todo_id p
            (save_data [("user1", ([] : List TodoItem))]) =
          (save_data [("user1", ([] : List TodoItem))],
           .error ⟨404, "User not found"⟩)) ∧
      (∀ todo_id, delete_request "ghost" todo_id
          (save_data [("user1", ([] : List TodoItem))]) =
        (save_data [("user1", ([] : List TodoItem))],
         .error ⟨404, "User not found"⟩)) ∧
      (∀ newU, rename_request "ghost" newU
          (save_data [("user1", ([] : List TodoItem))]) =
        (save_data [("user1", ([] : List TodoItem))],
         .error ⟨404, "User not found"⟩))) :=
  ⟨by decide, absent_user_404 "ghost" [("user1", [])] (by decide)⟩

/-- Claim C6: ListTodos fails with 404 exactly when the username key is absent
from the dataset mapping; when the key is present with an empty bucket it
returns the empty list with status 200. -/
theorem list_todos_found_iff (u : String) (d : Dataset) :
    (get_todos_for_user u d =
        .error ⟨404, "User not found or no todos for this user"⟩ ↔
      dget d u = none) ∧
    (dget d u = some [] →
      get_todos_for_user u d = .ok [] ∧
      statusOf (get_todos_for_user u d) = 200) := by
  constructor
  · constructor
    · intro h
      cases hg : dget d u with
      | none => rfl
      | some b => simp [get_todos_for_user, hg] at h
    · intro h
      simp [get_todos_for_user, h]
  · intro h
    simp [get_todos_for_user, h, statusOf]

/-- Witness for C6 on a dataset holding one user with an empty bucket. -/
theorem list_todos_found_iff_witness :
    (get_todos_for_user "emptyUser" [("emptyUser", ([] : List TodoItem))] =
        .error ⟨404, "User not found or no todos for this user"⟩ ↔
      dget [("emptyUser", ([] : List TodoItem))] "emptyUser" = none) ∧
    (dget [("emptyUser", ([] : List TodoItem))] "emptyUser" = some [] →
      get_todos_for_user "emptyUser" [("emptyUser", ([] : List TodoItem))] =
        .ok [] ∧
      statusOf (get_todos_for_user "emptyUser"
        [("emptyUser", ([] : List TodoItem))]) = 200) :=
  list_todos_found_iff "emptyUser" [("emptyUser", [])]

/-- Claim C7: for every existing user, DeleteTodo removes exactly the item
whose id matches, leaving the remaining items of the bucket, their order, and
all other users' buckets unchanged; when no item in the bucket matches the
id, it fails with 404 and the persisted file is unchanged. -/
theorem delete_exact (u todo_id : String) (d : Dataset) :
    (∀ pre t post, dget d u = some (pre ++ t :: post) → t.id = todo_id →
      (∀ x ∈ pre ++ post, x.id ≠ todo_id) →
      delete_todo_for_user u todo_id d =
        .ok (dset d u (pre ++ post), "Todo deleted successfully") ∧
      ∀ v, v ≠ u → dget (dset d u (pre ++ post)) v = dget d v) ∧
    (∀ bucket, dget d u = some bucket → (∀ x ∈ bucket, x.id ≠ todo_id) →
      delete_request u todo_id (save_data d) =
        (save_data d, .error ⟨404, "Todo not found"⟩)) := by
  constructor
  · intro pre t post hb ht hrest
    have hpre : pre.filter (fun todo => !(todo.id == todo_id)) = pre :=
      filter_id_ne_of_none_match todo_id pre
        (fun x hx => hrest x (by simp [hx]))
    have hpost : post.filter (fun todo => !(todo.id == todo_id)) = post :=
      filter_id_ne_of_none_match todo_id post
        (fun x hx => hrest x (by simp [hx]))
    have htb : (t.id == todo_id) = true := by simp [ht]
    have hfil : (pre ++ t :: post).filter (fun todo => !(todo.id == todo_id)) =
        pre ++ post := by
      simp [List.filter_append, List.filter_cons, htb, hpre, hpost]
    have hlen : ¬ ((pre ++ post).length = (pre ++ t :: post).length) := by
      simp [List.length_append]
    constructor
    · simp [delete_todo_for_user, hb, hfil, hlen]
    · intro v hv
      exact dget_dset_ne d u v _ hv
  · intro bucket hb hno
    have hfil : bucket.filter (fun todo => !(todo.id == todo_id)) = bucket :=
      filter_id_ne_of_none_match todo_id bucket hno
    simp [delete_request, load_data, save_data, delete_todo_for_user, hb, hfil]

/-- Witness for C7: deleting the middle item of a three-item bucket, and a
delete with an id that matches nothing. -/
theorem delete_exact_witness :
    (delete_todo_for_user "alice" "b" dC7 =
        .ok (dset dC7 "alice"
          ([⟨"a", "first", none, false⟩] ++ [⟨"c", "third", none, false⟩]),
         "Todo deleted successfully") ∧
      ∀ v, v ≠ "alice" →
        dget (dset dC7 "alice"
          ([⟨"a", "first", none, false⟩] ++ [⟨"c", "third", none, false⟩])) v =
        dget dC7 v) ∧
    delete_request "alice" "zz" (save_data dC7) =
      (save_data dC7, .error ⟨404, "Todo not found"⟩) :=
  ⟨(delete_exact "alice" "b" dC7).1
     [⟨"a", "first", none, false⟩] ⟨"b", "second", some "mid", true⟩
     [⟨"c", "third", none, false⟩] (by decide) (by decide) (by decide),
   (delete_exact "alice" "zz" dC7).2
     [⟨"a", "first", none, false⟩, ⟨"b", "second", some "mid", true⟩,
      ⟨"c", "third", none, false⟩] (by decide) (by decide)⟩

/-- Claim C9: every successful UpdateTodo keeps the original id of the item
(the body model has no id field at all), leaves it at the same position of
the bucket, and leaves every other item of that bucket and every other user's
bucket unchanged; the result is persisted. -/
theorem update_frame (u todo_id : String) (p : TodoCreatePayload)
    (tc : TodoCreate) (d : Dataset) (pre post : List TodoItem) (t : TodoItem)
    (hv : validateTodoCreate p = .ok tc)
    (hb : dget d u = some (pre ++ t :: post))
    (ht : t.id = todo_id)
    (hpre : ∀ x ∈ pre, x.id ≠ todo_id) :
    update_request u todo_id p (save_data d) =
      (save_data (dset d u (pre ++ mergeUpdate t p :: post)),
       .ok (mergeUpdate t p)) ∧
    (mergeUpdate t p).id = t.id ∧
    (∀ v, v ≠ u →
      dget (dset d u (pre ++ mergeUpdate t p :: post)) v = dget d v) := by
  refine ⟨?_, rfl, ?_⟩
  · have hscan := update_scan_found todo_id p pre post t ht hpre
    simp [update_request, hv, load_data, save_data, update_todo_for_user, hb,
      hscan]
  · intro v hvne
    exact dget_dset_ne d u v _ hvne

/-- Witness for C9: updating the second of two items with a body that carries
title and completed only. -/
theorem update_frame_witness :
    update_request "alice" "b" ⟨some "renamed", none, some true⟩
        (save_data dC9) =
      (save_data (dset dC9 "alice"
        ([⟨"a", "first", some "da", false⟩] ++
          mergeUpdate ⟨"b", "second", some "db", false⟩
            ⟨some "renamed", none, some true⟩ :: [])),
       .ok (mergeUpdate ⟨"b", "second", some "db", false⟩
         ⟨some "renamed", none, some true⟩)) ∧
    (mergeUpdate ⟨"b", "second", some "db", false⟩
      ⟨some "renamed", none, some true⟩).id = "b" ∧
    (∀ v, v ≠ "alice" →
      dget (dset dC9 "alice"
        ([⟨"a", "first", some "da", false⟩] ++
          mergeUpdate ⟨"b", "second", some "db", false⟩
            ⟨some "renamed", none, some true⟩ :: [])) v = dget dC9 v) :=
  update_frame "alice" "b" ⟨some "renamed", none, some true⟩
    ⟨"renamed", none, true⟩ dC9
    [⟨"a", "first", some "da", false⟩] []
    ⟨"b", "second", some "db", false⟩
    rfl (by decide) (by decide) (by decide)

/-- Counterexample to claim C2 as stated: on an existing user and an existing
todo id, a request body containing only a completed field does not succeed;
the required title is missing from the TodoCreate body model, so validation
rejects the request with 422 and the stored record is untouched. -/
theorem update_only_completed_rejected :
    update_request "alice" "t1" ⟨none, none, some true⟩ (save_data dC2) =
      (save_data dC2, .error ⟨422, "Field required"⟩) ∧
    statusOf
      (update_request "alice" "t1" ⟨none, none, some true⟩ (save_data dC2)).2 =
      422 :=
  ⟨rfl, rfl⟩

/-- Claim C2 amended: a body containing only a completed field is rejected
with 422 because title is required in the body model; for a body that does
carry a title together with completed true and no description key, the update
succeeds and merges by payload presence: completed becomes true, description
keeps its previous value, the id is kept, and the title is the supplied
one. -/
theorem update_merge_requires_title (u todo_id : String) (d : Dataset)
    (pre post : List TodoItem) (t : TodoItem) (newTitle : String)
    (hb : dget d u = some (pre ++ t :: post)) (ht : t.id = todo_id)
    (hpre : ∀ x ∈ pre, x.id ≠ todo_id) :
    update_request u todo_id ⟨none, none, some true⟩ (save_data d) =
      (save_data d, .error ⟨422, "Field required"⟩) ∧
    (update_request u todo_id ⟨some newTitle, none, some true⟩
        (save_data d)).2 =
      .ok ⟨t.id, newTitle, t.description, true⟩ := by
  constructor
  · rfl
  · have hscan := update_scan_found todo_id ⟨some newTitle, none, some true⟩
      pre post t ht hpre
    have hm : mergeUpdate t ⟨some newTitle, none, some true⟩ =
        ⟨t.id, newTitle, t.description, true⟩ := rfl
    rw [hm] at hscan
    simp [update_request, validateTodoCreate, load_data, save_data,
      update_todo_for_user, hb, hscan]

/-- Witness for the amended C2 on the stored Buy milk record. -/
theorem update_merge_requires_title_witness :
    update_request "alice" "t1" ⟨none, none, some true⟩ (save_data dC2) =
      (save_data dC2, .error ⟨422, "Field required"⟩) ∧
    (update_request "alice" "t1" ⟨some "Buy milk", none, some true⟩
        (save_data dC2)).2 =
      .ok ⟨"t1", "Buy milk", some "2 liters", true⟩ :=
  update_merge_requires_title "alice" "t1" dC2 []
    [] ⟨"t1", "Buy milk", some "2 liters", false⟩ "Buy milk"
    (by decide) (by decide) (by decide)

/-- Counterexample to claim C5 as stated: not every file-read error yields the
empty dataset. A read failure other than a missing file, such as an
unreadable file, is not caught by the try block of load_data, so the error
propagates instead of producing the empty dataset. -/
theorem load_unreadable_propagates :
    load_data FileState.unreadable = .error ⟨500, "Internal Server Error"⟩ ∧
    ¬ load_data FileState.unreadable = .ok ([] : Dataset) :=
  ⟨rfl, by simp [load_data]⟩

/-- Claim C5 amended: loading from an absent file, an empty file, or a file
with malformed JSON yields the empty dataset silently, because load_data
catches exactly FileNotFoundError and JSONDecodeError; any other read error,
such as an unreadable file, propagates instead. -/
theorem load_missing_empty_malformed :
    load_data FileState.absent = .ok ([] : Dataset) ∧
    load_data (FileState.stored FileContent.emptyStr) = .ok ([] : Dataset) ∧
    load_data (FileState.stored FileContent.malformed) = .ok ([] : Dataset) ∧
    load_data FileState.unreadable = .error ⟨500, "Internal Server Error"⟩ :=
  ⟨rfl, rfl, rfl, rfl⟩

/-- Claim C8: creating N todo items for a user, each write persisted to the
file, and then listing that user reloads the dataset from the file and
returns the same N items in creation order with the given title, description
and completed, each carrying its generated non-empty id; and save_data
followed by load_data reproduces every dataset. -/
theorem create_list_roundtrip (u : String)
    (items : List (TodoCreate × String))
    (hne : items ≠ []) (hids : ∀ q ∈ items, q.2 ≠ "") :
    list_request u (create_many u items FileState.absent) =
      .ok (items.map mkTodo) ∧
    (∀ t ∈ items.map mkTodo, t.id ≠ "") ∧
    (∀ d : Dataset, load_data (save_data d) = .ok d) := by
  refine ⟨?_, ?_, fun d => rfl⟩
  · obtain ⟨q, rest, rfl⟩ : ∃ q rest, items = q :: rest := by
      cases items with
      | nil => exact absurd rfl hne
      | cons q rest => exact ⟨q, rest, rfl⟩
    have hload := create_many_load u (q :: rest) FileState.absent [] rfl
    have hd1 : create_fold u (q :: rest) ([] : Dataset) =
        create_fold u rest (create_todo_for_user u q.1 q.2 []).1 := by
      simp [create_fold]
    have hb1 : dget (create_todo_for_user u q.1 q.2 ([] : Dataset)).1 u =
        some [mkTodo (q.1, q.2)] := by
      simpa [dget] using create_todo_bucket u q.1 q.2 []
    have hbucket := create_fold_bucket u rest _ [mkTodo (q.1, q.2)] hb1
    rw [hd1] at hload
    simp only [list_request, hload]
    simp [get_todos_for_user, hbucket]
  · intro t htmem
    simp only [List.mem_map] at htmem
    obtain ⟨q, hq, rfl⟩ := htmem
    exact hids q hq

/-- Witness for C8: two creates followed by a list. -/
theorem create_list_roundtrip_witness :
    list_request "alice" (create_many "alice" itemsC8 FileState.absent) =
      .ok (itemsC8.map mkTodo) ∧
    (∀ t ∈ itemsC8.map mkTodo, t.id ≠ "") ∧
    (∀ d : Dataset, load_data (save_data d) = .ok d) :=
  create_list_roundtrip "alice" itemsC8 (by decide) (by decide)

/-- Claim C10: deleting the last remaining todo of a user keeps the username
key in the persisted dataset with an empty bucket, so an immediately
following ListTodos for that username returns the empty list with status 200
rather than 404. -/
theorem delete_last_then_list (u : String) (t : TodoItem) (d : Dataset)
    (hb : dget d u = some [t]) :
    (delete_request u t.id (save_data d)).2 = .ok "Todo deleted successfully" ∧
    (∃ d2, load_data (delete_request u t.id (save_data d)).1 = .ok d2 ∧
      dget d2 u = some []) ∧
    list_request u (delete_request u t.id (save_data d)).1 = .ok [] ∧
    statusOf (list_request u (delete_request u t.id (save_data d)).1) =
      200 := by
  have hfil : [t].filter (fun todo => !(todo.id == t.id)) = [] := by simp
  have hr : delete_request u t.id (save_data d) =
      (save_data (dset d u []), .ok "Todo deleted successfully") := by
    simp [delete_request, load_data, save_data, delete_todo_for_user, hb, hfil]
  rw [hr]
  refine ⟨rfl, ⟨dset d u [], rfl, dget_dset_self d u []⟩, ?_, ?_⟩
  · simp [list_request, load_data, save_data, get_todos_for_user,
      dget_dset_self]
  · simp [list_request, load_data, save_data, get_todos_for_user,
      dget_dset_self, statusOf]

/-- Witness for C10 on a user whose bucket has exactly one item. -/
theorem delete_last_then_list_witness :
    (delete_request "alice" "only" (save_data dC10)).2 =
      .ok "Todo deleted successfully" ∧
    (∃ d2, load_data (delete_request "alice" "only" (save_data dC10)).1 =
        .ok d2 ∧ dget d2 "alice" = some []) ∧
    list_request "alice" (delete_request "alice" "only" (save_data dC10)).1 =
      .ok [] ∧
    statusOf (list_request "alice"
      (delete_request "alice" "only" (save_data dC10)).1) = 200 :=
  delete_last_then_list "alice" ⟨"only", "last task", none, false⟩ dC10
    (by decide)
